import Mathlib

/-!
Shallow embedding of the ElevationRS crate (src/lib.rs): the `Elevation`
context (administrators-group SID allocation, elevation queries, cleanup
and renewal) together with its `Error` taxonomy.  Native Windows calls
(OpenProcess, GetLastError, CheckTokenMembership, AllocateAndInitializeSid,
malloc) are modelled as a deterministic oracle `OS`; one process lifetime
corresponds to one fixed `OS` value.  Queries are instrumented: the record
returned by `is_elevated` also reports which membership-primitive call was
made (if any), which process handle was opened, and which handles were
closed, so that claims about native-call behaviour are statable.
-/

namespace ElevationRS

/-- winapi `TRUE` (as `i32`, modelled by `Int`). -/
def TRUE : Int := 1

/-- winapi `FALSE` (as `i32`, modelled by `Int`). -/
def FALSE : Int := 0

/-- winapi `PROCESS_ALL_ACCESS` access-rights mask. -/
def PROCESS_ALL_ACCESS : Nat := 0x1F0FFF

/-- `ErrorType` enum from src/lib.rs. -/
inductive ErrorType where
  | none
  | unknown
  | notRenewed
  | openProcessFailed
deriving DecidableEq, Repr

/-- `Error` struct from src/lib.rs: `code: DWORD` (modelled by `Nat`),
static message and tip strings, and the error type. -/
structure Error where
  code : Nat
  message : String
  tip : String
  etype : ErrorType
deriving DecidableEq, Repr

/-- `Error::new`. -/
def Error.new (code : Nat) (message : String) (tip : String)
    (etype : ErrorType) : Error :=
  { code := code, message := message, tip := tip, etype := etype }

/-- `Error::get_code`: `None` when the stored code is 0, else `Some code`. -/
def Error.get_code (e : Error) : Option Nat :=
  if e.code = 0 then none else some e.code

/-- `Error::get_type`: `None` when the stored type is `ErrorType::None`. -/
def Error.get_type (e : Error) : Option ErrorType :=
  if e.etype = ErrorType.none then none else some e.etype

/-- Outcome of one `CheckTokenMembership` call: the `BOOL` return value and
the value the call writes through its `IsMember` out-pointer. -/
structure CTMOut where
  ret : Int
  isMember : Int
deriving DecidableEq, Repr

/-- Outcome of the allocation path of `Elevation::alloc`: the `BOOL` result
of `AllocateAndInitializeSid`, the resulting `PSID` (pointers modelled by
`Nat`), and the `malloc`ed backing buffer pointer. -/
structure AllocOut where
  sidResult : Int
  adminsGroup : Nat
  mem : Nat
deriving DecidableEq, Repr

/-- Deterministic model of the operating-system primitives used by the
crate, fixed for one process lifetime.  Handles and pointers are `Nat`,
with 0 playing the role of the null handle/pointer. -/
structure OS where
  /-- `OpenProcess(access, bInheritHandle, pid)`: returned handle, 0 = null. -/
  openProcess : Nat → Int → Nat → Nat
  /-- `GetLastError()` as observed right after `OpenProcess` failed on `pid`. -/
  openError : Nat → Nat
  /-- `CheckTokenMembership(handle, psid, out)`: outcome per handle and SID. -/
  checkTokenMembership : Nat → Nat → CTMOut
  /-- Outcome of `Elevation::alloc`'s `malloc` + `AllocateAndInitializeSid`. -/
  alloc : AllocOut

/-- `Elevation` struct from src/lib.rs. -/
structure Elevation where
  sid_result : Int
  admins_group : Nat
  mem : Nat
  cleaned : Bool
deriving DecidableEq, Repr

/-- `Elevation::alloc`: returns `(sid_result, admins_group, mem)` as produced
by `malloc` and `AllocateAndInitializeSid`. -/
def Elevation.alloc (os : OS) : Int × Nat × Nat :=
  (os.alloc.sidResult, os.alloc.adminsGroup, os.alloc.mem)

/-- `Elevation::new`: builds a context from a fresh allocation, not cleaned. -/
def Elevation.new (os : OS) : Elevation :=
  let a := Elevation.alloc os
  { sid_result := a.1, admins_group := a.2.1, mem := a.2.2, cleaned := false }

/-- `Elevation::renew`: overwrites all four fields from a fresh allocation. -/
def Elevation.renew (os : OS) (self : Elevation) : Elevation :=
  let a := Elevation.alloc os
  { sid_result := a.1, admins_group := a.2.1, mem := a.2.2, cleaned := false }

/-- `Elevation::cleanup`: frees the native resources (an OS side effect not
recorded in the context) and sets `cleaned` to true; the pointer fields keep
their (now dangling) values. -/
def Elevation.cleanup (self : Elevation) : Elevation :=
  { self with cleaned := true }

/-- `Elevation::is_cleaned`. -/
def Elevation.is_cleaned (self : Elevation) : Bool :=
  self.cleaned

/-- Record of the one `CheckTokenMembership` invocation a query may make. -/
structure CTMCall where
  handle : Nat
  psid : Nat
  out : CTMOut
deriving DecidableEq, Repr

/-- Instrumented outcome of one `Elevation::is_elevated` call: the returned
`Result`, the context state after the call, the membership call made (if
any), the process handle successfully opened (if any), and the handles
passed to `CloseHandle`, in order. -/
structure QueryOut where
  result : Except Error Bool
  state : Elevation
  ctmCall : Option CTMCall
  openedHandle : Option Nat
  closedHandles : List Nat
deriving Repr

/-- Tail of `Elevation::is_elevated` after the handle has been settled
(lines 178–193 of src/lib.rs): the guarded `CheckTokenMembership` step that
overwrites `sid_result` (coercing a failed call to `FALSE`), the guarded
`CloseHandle`, and the final `Ok(sid_result == TRUE)` return. -/
def Elevation.membershipAndReturn (os : OS) (self : Elevation) (handle : Nat)
    (opened : Option Nat) : QueryOut :=
  let step : Int × Option CTMCall :=
    if self.sid_result = TRUE then
      let o := os.checkTokenMembership handle self.admins_group
      ((if o.ret = FALSE then FALSE else o.isMember),
        some { handle := handle, psid := self.admins_group, out := o })
    else
      (self.sid_result, none)
  { result := if step.1 = TRUE then Except.ok true else Except.ok false,
    state := { self with sid_result := step.1 },
    ctmCall := step.2,
    openedHandle := opened,
    closedHandles := if handle = 0 then [] else [handle] }

/-- `Elevation::is_elevated` (lines 149–194 of src/lib.rs).  The `cleaned`
guard, then the optional `OpenProcess` acquisition with its null-handle
error path, then the shared membership/close/return tail. -/
def Elevation.is_elevated (os : OS) (self : Elevation) (pid : Option Nat) :
    QueryOut :=
  if self.cleaned then
    { result := Except.error (Error.new 0
        "Checking elevation after cleanup!"
        "Create new Elevation object or use renew() method after cleanup."
        ErrorType.notRenewed),
      state := self, ctmCall := none, openedHandle := none,
      closedHandles := [] }
  else
    match pid with
    | some p =>
      let handle := os.openProcess PROCESS_ALL_ACCESS FALSE p
      if handle = 0 then
        { result := Except.error (Error.new (os.openError p)
            "OpenProcess has failed!"
            "Check the error code for more details."
            ErrorType.openProcessFailed),
          state := self, ctmCall := none, openedHandle := none,
          closedHandles := [] }
      else
        Elevation.membershipAndReturn os self handle (some handle)
    | none => Elevation.membershipAndReturn os self 0 none

/-- Runs a sequence of queries, keeping only the evolving context state. -/
def runQueries (os : OS) (self : Elevation) (pids : List (Option Nat)) :
    Elevation :=
  pids.foldl (fun s p => (Elevation.is_elevated os s p).state) self

/-- The value left in the shared status slot by the membership step, as a
function of its pre-call value, the SID and the handle (the functional core
of lines 178–182 of src/lib.rs). -/
def tailStatus (os : OS) (sid : Int) (psid : Nat) (handle : Nat) : Int :=
  if sid = TRUE then
    (if (os.checkTokenMembership handle psid).ret = FALSE then FALSE
      else (os.checkTokenMembership handle psid).isMember)
  else sid

/-! Concrete oracles and contexts used to instantiate the theorems. -/

/-- Oracle on which every `OpenProcess` succeeds (handle `pid + 1`), the
membership primitive succeeds and reports membership, and allocation
succeeded with `sid_result = 1`. -/
def osA : OS :=
  { openProcess := fun _ _ p => p + 1,
    openError := fun _ => 5,
    checkTokenMembership := fun _ _ => { ret := 1, isMember := 1 },
    alloc := { sidResult := 1, adminsGroup := 10, mem := 20 } }

/-- Oracle on which every `OpenProcess` fails (null handle) with native
error code 6. -/
def osFailOpen : OS :=
  { openProcess := fun _ _ _ => 0,
    openError := fun _ => 6,
    checkTokenMembership := fun _ _ => { ret := 1, isMember := 1 },
    alloc := { sidResult := 1, adminsGroup := 10, mem := 20 } }

/-- Oracle whose membership primitive call fails (returns `FALSE`). -/
def osCtmFail : OS :=
  { openProcess := fun _ _ p => p + 1,
    openError := fun _ => 5,
    checkTokenMembership := fun _ _ => { ret := 0, isMember := 1 },
    alloc := { sidResult := 1, adminsGroup := 10, mem := 20 } }

/-- Non-released context whose allocation status slot holds `TRUE`. -/
def ctxOne : Elevation :=
  { sid_result := 1, admins_group := 10, mem := 20, cleaned := false }

/-- Non-released context whose allocation status slot holds 0 (failure). -/
def ctxZero : Elevation :=
  { sid_result := 0, admins_group := 10, mem := 20, cleaned := false }

/-- Non-released context whose allocation status slot holds 2: nonzero
(success under the spec's "nonzero = success" reading) yet not `TRUE`. -/
def ctxTwo : Elevation :=
  { sid_result := 2, admins_group := 10, mem := 20, cleaned := false }

/-- Context on which cleanup has run. -/
def ctxCleaned : Elevation :=
  { sid_result := 1, admins_group := 10, mem := 20, cleaned := true }

end ElevationRS

namespace ElevationRS

/-! Characterization lemmas for the two halves of `is_elevated`. -/

/-- The final `Ok(sid_result == TRUE)` return, as a boolean equation. -/
theorem iteOkEq (x : Int) :
    (if x = TRUE then (Except.ok true : Except Error Bool)
      else Except.ok false) = Except.ok (decide (x = TRUE)) := by
  by_cases h : x = TRUE <;> simp [h]

/-- `membershipAndReturn` when the status slot holds `TRUE`: the membership
primitive runs and its outcome (coerced to `FALSE` on a failed call)
becomes the new status slot. -/
theorem mar_eq_true (os : OS) (self : Elevation) (handle : Nat)
    (opened : Option Nat) (hs : self.sid_result = TRUE) :
    Elevation.membershipAndReturn os self handle opened =
      { result :=
          if (if (os.checkTokenMembership handle self.admins_group).ret = FALSE
              then FALSE
              else (os.checkTokenMembership handle self.admins_group).isMember)
            = TRUE
          then Except.ok true else Except.ok false,
        state := { self with sid_result :=
          if (os.checkTokenMembership handle self.admins_group).ret = FALSE
          then FALSE
          else (os.checkTokenMembership handle self.admins_group).isMember },
        ctmCall := some
          { handle := handle, psid := self.admins_group,
            out := os.checkTokenMembership handle self.admins_group },
        openedHandle := opened,
        closedHandles := if handle = 0 then [] else [handle] } := by
  unfold Elevation.membershipAndReturn
  rw [if_pos hs]

/-- `membershipAndReturn` when the status slot does not hold `TRUE`: no
membership call, the state is untouched and the query reports `Ok(false)`. -/
theorem mar_eq_not_true (os : OS) (self : Elevation) (handle : Nat)
    (opened : Option Nat) (hs : self.sid_result ≠ TRUE) :
    Elevation.membershipAndReturn os self handle opened =
      { result := Except.ok false,
        state := self,
        ctmCall := none,
        openedHandle := opened,
        closedHandles := if handle = 0 then [] else [handle] } := by
  unfold Elevation.membershipAndReturn
  rw [if_neg hs]
  simp only [if_neg hs]

/-- The query result always mirrors the status slot left in the state. -/
theorem mar_result (os : OS) (self : Elevation) (handle : Nat)
    (opened : Option Nat) :
    (Elevation.membershipAndReturn os self handle opened).result =
      Except.ok (decide
        ((Elevation.membershipAndReturn os self handle opened).state.sid_result
          = TRUE)) := by
  by_cases hs : self.sid_result = TRUE
  · rw [mar_eq_true os self handle opened hs]
    exact iteOkEq _
  · rw [mar_eq_not_true os self handle opened hs]
    simp [hs]

/-- `is_elevated` on a cleaned context: the `NotRenewed` error record. -/
theorem is_elevated_cleaned (os : OS) (self : Elevation) (pid : Option Nat)
    (h : self.cleaned = true) :
    Elevation.is_elevated os self pid =
      { result := Except.error (Error.new 0
          "Checking elevation after cleanup!"
          "Create new Elevation object or use renew() method after cleanup."
          ErrorType.notRenewed),
        state := self, ctmCall := none, openedHandle := none,
        closedHandles := [] } := by
  unfold Elevation.is_elevated
  simp only [h, if_true]

/-- `is_elevated` with no target on a live context: the shared tail with the
null handle. -/
theorem is_elevated_none (os : OS) (self : Elevation)
    (h : self.cleaned = false) :
    Elevation.is_elevated os self none =
      Elevation.membershipAndReturn os self 0 none := by
  unfold Elevation.is_elevated
  simp only [h, Bool.false_eq_true, if_false]

/-- `is_elevated` with a target whose `OpenProcess` returns null: the
`OpenProcessFailed` error record. -/
theorem is_elevated_open_fail (os : OS) (self : Elevation) (p : Nat)
    (hc : self.cleaned = false)
    (ho : os.openProcess PROCESS_ALL_ACCESS FALSE p = 0) :
    Elevation.is_elevated os self (some p) =
      { result := Except.error (Error.new (os.openError p)
          "OpenProcess has failed!"
          "Check the error code for more details."
          ErrorType.openProcessFailed),
        state := self, ctmCall := none, openedHandle := none,
        closedHandles := [] } := by
  unfold Elevation.is_elevated
  simp only [hc, Bool.false_eq_true, if_false, ho, if_true]

/-- `is_elevated` with a target whose `OpenProcess` succeeds: the shared
tail with the opened handle. -/
theorem is_elevated_open_ok (os : OS) (self : Elevation) (p : Nat)
    (hc : self.cleaned = false)
    (ho : os.openProcess PROCESS_ALL_ACCESS FALSE p ≠ 0) :
    Elevation.is_elevated os self (some p) =
      Elevation.membershipAndReturn os self
        (os.openProcess PROCESS_ALL_ACCESS FALSE p)
        (some (os.openProcess PROCESS_ALL_ACCESS FALSE p)) := by
  unfold Elevation.is_elevated
  simp only [hc, Bool.false_eq_true, if_false, if_neg ho]

end ElevationRS

namespace ElevationRS

/-! Frame and idempotence lemmas. -/

/-- The membership tail never changes `admins_group`. -/
theorem mar_agroup (os : OS) (self : Elevation) (handle : Nat)
    (opened : Option Nat) :
    (Elevation.membershipAndReturn os self handle opened).state.admins_group =
      self.admins_group := by
  by_cases hs : self.sid_result = TRUE
  · rw [mar_eq_true os self handle opened hs]
  · rw [mar_eq_not_true os self handle opened hs]

/-- The membership tail never changes `mem`. -/
theorem mar_mem (os : OS) (self : Elevation) (handle : Nat)
    (opened : Option Nat) :
    (Elevation.membershipAndReturn os self handle opened).state.mem =
      self.mem := by
  by_cases hs : self.sid_result = TRUE
  · rw [mar_eq_true os self handle opened hs]
  · rw [mar_eq_not_true os self handle opened hs]

/-- The membership tail never changes `cleaned`. -/
theorem mar_cleaned (os : OS) (self : Elevation) (handle : Nat)
    (opened : Option Nat) :
    (Elevation.membershipAndReturn os self handle opened).state.cleaned =
      self.cleaned := by
  by_cases hs : self.sid_result = TRUE
  · rw [mar_eq_true os self handle opened hs]
  · rw [mar_eq_not_true os self handle opened hs]

/-- The status slot after the membership tail is `tailStatus` of the slot
before it. -/
theorem mar_sid (os : OS) (self : Elevation) (handle : Nat)
    (opened : Option Nat) :
    (Elevation.membershipAndReturn os self handle opened).state.sid_result =
      tailStatus os self.sid_result self.admins_group handle := by
  unfold tailStatus
  by_cases hs : self.sid_result = TRUE
  · rw [mar_eq_true os self handle opened hs, if_pos hs]
  · rw [mar_eq_not_true os self handle opened hs, if_neg hs]

/-- The membership tail's result, via `tailStatus`. -/
theorem mar_result_tail (os : OS) (self : Elevation) (handle : Nat)
    (opened : Option Nat) :
    (Elevation.membershipAndReturn os self handle opened).result =
      Except.ok
        (decide (tailStatus os self.sid_result self.admins_group handle =
          TRUE)) := by
  rw [mar_result os self handle opened, mar_sid os self handle opened]

/-- `tailStatus` is idempotent in its status argument. -/
theorem tailStatus_idem (os : OS) (sid : Int) (psid : Nat) (handle : Nat) :
    tailStatus os (tailStatus os sid psid handle) psid handle =
      tailStatus os sid psid handle := by
  unfold tailStatus
  by_cases hs : sid = TRUE
  · rw [if_pos hs]
    split <;> split <;> rfl
  · rw [if_neg hs]
    rw [if_neg hs]

/-- A query on a context whose status slot is not `TRUE` leaves the whole
context untouched. -/
theorem query_preserves_state (os : OS) (self : Elevation) (pid : Option Nat)
    (hs : self.sid_result ≠ TRUE) :
    (Elevation.is_elevated os self pid).state = self := by
  by_cases hcl : self.cleaned = true
  · rw [is_elevated_cleaned os self pid hcl]
  · have hc : self.cleaned = false := by simpa using hcl
    rcases pid with _ | p
    · rw [is_elevated_none os self hc, mar_eq_not_true os self 0 none hs]
    · by_cases hop : os.openProcess PROCESS_ALL_ACCESS FALSE p = 0
      · rw [is_elevated_open_fail os self p hc hop]
      · rw [is_elevated_open_ok os self p hc hop,
          mar_eq_not_true os self _ _ hs]

/-- A query on a context whose status slot is not `TRUE` never invokes the
membership primitive. -/
theorem query_sid_ne_no_ctm (os : OS) (self : Elevation) (pid : Option Nat)
    (hs : self.sid_result ≠ TRUE) :
    (Elevation.is_elevated os self pid).ctmCall = none := by
  by_cases hcl : self.cleaned = true
  · rw [is_elevated_cleaned os self pid hcl]
  · have hc : self.cleaned = false := by simpa using hcl
    rcases pid with _ | p
    · rw [is_elevated_none os self hc, mar_eq_not_true os self 0 none hs]
    · by_cases hop : os.openProcess PROCESS_ALL_ACCESS FALSE p = 0
      · rw [is_elevated_open_fail os self p hc hop]
      · rw [is_elevated_open_ok os self p hc hop,
          mar_eq_not_true os self _ _ hs]

/-- A query on a context whose status slot is not `TRUE` can only report
`false` when it reports a boolean at all. -/
theorem query_sid_ne_result (os : OS) (self : Elevation) (pid : Option Nat)
    (b : Bool) (hs : self.sid_result ≠ TRUE)
    (h : (Elevation.is_elevated os self pid).result = Except.ok b) :
    b = false := by
  by_cases hcl : self.cleaned = true
  · rw [is_elevated_cleaned os self pid hcl] at h
    exact absurd h (by simp)
  · have hc : self.cleaned = false := by simpa using hcl
    rcases pid with _ | p
    · rw [is_elevated_none os self hc,
        mar_eq_not_true os self 0 none hs] at h
      simpa using h.symm
    · by_cases hop : os.openProcess PROCESS_ALL_ACCESS FALSE p = 0
      · rw [is_elevated_open_fail os self p hc hop] at h
        exact absurd h (by simp)
      · rw [is_elevated_open_ok os self p hc hop,
          mar_eq_not_true os self _ _ hs] at h
        simpa using h.symm

/-- A query that reports `Ok(false)` leaves a status slot different from
`TRUE`. -/
theorem query_ok_false_sid (os : OS) (self : Elevation) (pid : Option Nat)
    (h : (Elevation.is_elevated os self pid).result = Except.ok false) :
    (Elevation.is_elevated os self pid).state.sid_result ≠ TRUE := by
  by_cases hcl : self.cleaned = true
  · rw [is_elevated_cleaned os self pid hcl] at h
    exact absurd h (by simp)
  · have hc : self.cleaned = false := by simpa using hcl
    rcases pid with _ | p
    · rw [is_elevated_none os self hc] at h ⊢
      rw [mar_result_tail os self 0 none] at h
      rw [mar_sid os self 0 none]
      intro hT
      rw [hT] at h
      simp at h
    · by_cases hop : os.openProcess PROCESS_ALL_ACCESS FALSE p = 0
      · rw [is_elevated_open_fail os self p hc hop] at h
        exact absurd h (by simp)
      · rw [is_elevated_open_ok os self p hc hop] at h ⊢
        rw [mar_result_tail os self _ _] at h
        rw [mar_sid os self _ _]
        intro hT
        rw [hT] at h
        simp at h

/-- A run of queries starting from a status slot different from `TRUE`
leaves the context exactly where it started. -/
theorem runQueries_fixed (os : OS) (self : Elevation)
    (hs : self.sid_result ≠ TRUE) (pids : List (Option Nat)) :
    runQueries os self pids = self := by
  induction pids with
  | nil => rfl
  | cons p ps ih =>
    unfold runQueries at ih ⊢
    rw [List.foldl_cons, query_preserves_state os self p hs]
    exact ih

end ElevationRS

namespace ElevationRS

/-! The claim theorems. -/

/-- C1: querying a context after cleanup, with any target and whatever the
prior (possibly successful) queries left in the other fields, fails with
`ErrorType.notRenewed`, and the error's stored code is 0 so `get_code`
returns `none`. -/
theorem query_after_cleanup_not_renewed (os : OS) (self : Elevation)
    (pid : Option Nat) (h : self.cleaned = true) :
    ∃ e, (Elevation.is_elevated os self pid).result = Except.error e ∧
      e.etype = ErrorType.notRenewed ∧ e.get_code = none := by
  rw [is_elevated_cleaned os self pid h]
  exact ⟨_, rfl, rfl, rfl⟩

/-- C1 witness: the theorem applied to the concrete cleaned context. -/
theorem query_after_cleanup_not_renewed_witness :
    ctxCleaned.cleaned = true ∧
      ∃ e, (Elevation.is_elevated osA ctxCleaned none).result =
          Except.error e ∧
        e.etype = ErrorType.notRenewed ∧ e.get_code = none :=
  ⟨rfl, query_after_cleanup_not_renewed osA ctxCleaned none rfl⟩

/-- C2: on a non-released context whose status slot records allocation
failure (0), a query with no target, or with a target whose handle opens
successfully, returns `Ok(false)` — never an error. -/
theorem alloc_failure_returns_ok_false (os : OS) (self : Elevation)
    (pid : Option Nat) (hc : self.cleaned = false)
    (hs : self.sid_result = 0)
    (hp : pid = none ∨
      ∃ p, pid = some p ∧ os.openProcess PROCESS_ALL_ACCESS FALSE p ≠ 0) :
    (Elevation.is_elevated os self pid).result = Except.ok false := by
  have hns : self.sid_result ≠ TRUE := by rw [hs]; decide
  rcases hp with rfl | ⟨p, rfl, hop⟩
  · rw [is_elevated_none os self hc, mar_eq_not_true os self 0 none hns]
  · rw [is_elevated_open_ok os self p hc hop,
      mar_eq_not_true os self _ _ hns]

/-- C2 witness: the theorem applied to the zero-status context, with no
target and with a target that opens successfully on `osA`. -/
theorem alloc_failure_returns_ok_false_witness :
    ctxZero.cleaned = false ∧ ctxZero.sid_result = 0 ∧
      (Elevation.is_elevated osA ctxZero none).result = Except.ok false ∧
      (Elevation.is_elevated osA ctxZero (some 7)).result = Except.ok false :=
  ⟨rfl, rfl,
    alloc_failure_returns_ok_false osA ctxZero none rfl rfl (Or.inl rfl),
    alloc_failure_returns_ok_false osA ctxZero (some 7) rfl rfl
      (Or.inr ⟨7, rfl, by decide⟩)⟩

/-- C3 counterexample: the context whose status slot holds 2 — nonzero,
hence "success" under the spec's "nonzero = success" reading — is
non-released and its query reaches the membership step (no target), yet the
membership primitive is not invoked: the code guards the call with
`sid_result == TRUE`, i.e. `= 1`, not with nonzero-ness. -/
theorem nonzero_status_membership_counterexample :
    ctxTwo.sid_result ≠ 0 ∧ ctxTwo.cleaned = false ∧
      (Elevation.is_elevated osA ctxTwo none).ctmCall = none :=
  ⟨by decide, rfl, rfl⟩

/-- C3 amended: on a non-released context whose status slot holds exactly
`TRUE` (1) — the code's success test — a query that reaches the membership
step invokes the membership primitive, and the returned boolean is
determined by the status slot after that invocation. -/
theorem status_true_invokes_membership (os : OS) (self : Elevation)
    (pid : Option Nat) (hc : self.cleaned = false)
    (hs : self.sid_result = TRUE)
    (hp : pid = none ∨
      ∃ p, pid = some p ∧ os.openProcess PROCESS_ALL_ACCESS FALSE p ≠ 0) :
    ((Elevation.is_elevated os self pid).ctmCall).isSome = true ∧
      (Elevation.is_elevated os self pid).result =
        Except.ok
          (decide ((Elevation.is_elevated os self pid).state.sid_result =
            TRUE)) := by
  rcases hp with rfl | ⟨p, rfl, hop⟩
  · rw [is_elevated_none os self hc]
    exact ⟨by rw [mar_eq_true os self 0 none hs]; rfl,
      mar_result os self 0 none⟩
  · rw [is_elevated_open_ok os self p hc hop]
    exact ⟨by rw [mar_eq_true os self _ _ hs]; rfl, mar_result os self _ _⟩

/-- C3 amended witness: on `osA` with the `TRUE`-status context, the
membership primitive is invoked and the result mirrors the final slot. -/
theorem status_true_invokes_membership_witness :
    ctxOne.cleaned = false ∧ ctxOne.sid_result = TRUE ∧
      ((Elevation.is_elevated osA ctxOne none).ctmCall).isSome = true ∧
      (Elevation.is_elevated osA ctxOne none).result =
        Except.ok
          (decide ((Elevation.is_elevated osA ctxOne none).state.sid_result =
            TRUE)) :=
  ⟨rfl, rfl,
    (status_true_invokes_membership osA ctxOne none rfl rfl (Or.inl rfl)).1,
    (status_true_invokes_membership osA ctxOne none rfl rfl (Or.inl rfl)).2⟩

/-- C4: on a non-released context, a query whose target's `OpenProcess`
returns the null handle fails with `ErrorType.openProcessFailed`, carries
the native error code captured at that moment (nonzero by the OS contract,
hence exposed by `get_code`), and never invokes the membership primitive. -/
theorem open_failure_error (os : OS) (self : Elevation) (p : Nat)
    (hc : self.cleaned = false)
    (ho : os.openProcess PROCESS_ALL_ACCESS FALSE p = 0)
    (he : os.openError p ≠ 0) :
    ∃ e, (Elevation.is_elevated os self (some p)).result = Except.error e ∧
      e.etype = ErrorType.openProcessFailed ∧
      e.get_code = some (os.openError p) ∧
      (Elevation.is_elevated os self (some p)).ctmCall = none := by
  rw [is_elevated_open_fail os self p hc ho]
  refine ⟨_, rfl, rfl, ?_, rfl⟩
  simp [Error.get_code, Error.new, he]

/-- C4 witness: the theorem applied to the always-failing-open oracle. -/
theorem open_failure_error_witness :
    ctxOne.cleaned = false ∧
      osFailOpen.openProcess PROCESS_ALL_ACCESS FALSE 7 = 0 ∧
      osFailOpen.openError 7 ≠ 0 ∧
      ∃ e, (Elevation.is_elevated osFailOpen ctxOne (some 7)).result =
          Except.error e ∧
        e.etype = ErrorType.openProcessFailed ∧
        e.get_code = some (osFailOpen.openError 7) ∧
        (Elevation.is_elevated osFailOpen ctxOne (some 7)).ctmCall = none :=
  ⟨rfl, rfl, by decide,
    open_failure_error osFailOpen ctxOne 7 rfl rfl (by decide)⟩

end ElevationRS

namespace ElevationRS

/-- C5: whenever a query invokes the membership primitive and the primitive
reports failure (returns `FALSE`), the shared status slot is coerced to
`FALSE` and the query returns `Ok(false)`; the slot is never left at its
pre-call value `TRUE`. -/
theorem ctm_failure_forces_false (os : OS) (self : Elevation)
    (pid : Option Nat) (c : CTMCall)
    (h : (Elevation.is_elevated os self pid).ctmCall = some c)
    (hr : c.out.ret = FALSE) :
    (Elevation.is_elevated os self pid).state.sid_result = FALSE ∧
      (Elevation.is_elevated os self pid).result = Except.ok false := by
  by_cases hcl : self.cleaned = true
  · rw [is_elevated_cleaned os self pid hcl] at h
    exact absurd h (by simp)
  · have hc : self.cleaned = false := by simpa using hcl
    by_cases hs : self.sid_result = TRUE
    · rcases pid with _ | p
      · rw [is_elevated_none os self hc, mar_eq_true os self 0 none hs]
          at h ⊢
        cases Option.some.inj h
        rw [if_pos (show
          (os.checkTokenMembership 0 self.admins_group).ret = FALSE from hr)]
        exact ⟨rfl, by rw [if_neg (show FALSE ≠ TRUE by decide)]⟩
      · by_cases hop : os.openProcess PROCESS_ALL_ACCESS FALSE p = 0
        · rw [is_elevated_open_fail os self p hc hop] at h
          exact absurd h (by simp)
        · rw [is_elevated_open_ok os self p hc hop,
            mar_eq_true os self _ _ hs] at h ⊢
          cases Option.some.inj h
          rw [if_pos (show
            (os.checkTokenMembership
              (os.openProcess PROCESS_ALL_ACCESS FALSE p)
              self.admins_group).ret = FALSE from hr)]
          exact ⟨rfl, by rw [if_neg (show FALSE ≠ TRUE by decide)]⟩
    · rw [query_sid_ne_no_ctm os self pid hs] at h
      exact absurd h (by simp)

/-- C5 witness: on an oracle whose membership primitive fails, a query on
the `TRUE`-status context coerces the slot to `FALSE` and reports
`Ok(false)`. -/
theorem ctm_failure_forces_false_witness :
    (Elevation.is_elevated osCtmFail ctxOne none).ctmCall =
      some { handle := 0, psid := 10, out := { ret := 0, isMember := 1 } } ∧
      (CTMCall.mk 0 10 (CTMOut.mk 0 1)).out.ret = FALSE ∧
      (Elevation.is_elevated osCtmFail ctxOne none).state.sid_result =
        FALSE ∧
      (Elevation.is_elevated osCtmFail ctxOne none).result =
        Except.ok false :=
  ⟨rfl, rfl,
    (ctm_failure_forces_false osCtmFail ctxOne none
      { handle := 0, psid := 10, out := { ret := 0, isMember := 1 } }
      rfl rfl).1,
    (ctm_failure_forces_false osCtmFail ctxOne none
      { handle := 0, psid := 10, out := { ret := 0, isMember := 1 } }
      rfl rfl).2⟩

/-- C6: `renew` overwrites all four fields with the fresh allocation's
values and resets `cleaned` to false, on any context (released or not);
a query immediately afterwards does not fail with `NotRenewed` — it
returns a boolean. -/
theorem renew_resets_context (os : OS) (self : Elevation) :
    Elevation.renew os self =
      { sid_result := os.alloc.sidResult,
        admins_group := os.alloc.adminsGroup,
        mem := os.alloc.mem, cleaned := false } ∧
      ∃ b, (Elevation.is_elevated os (Elevation.renew os self) none).result =
        Except.ok b := by
  refine ⟨rfl, ?_⟩
  rw [is_elevated_none os (Elevation.renew os self) rfl,
    mar_result os (Elevation.renew os self) 0 none]
  exact ⟨_, rfl⟩

/-- C7: a query closes exactly the handles it opened: when a process handle
was successfully opened it is closed exactly once before returning, on the
`Ok(true)` and `Ok(false)` paths alike; on every exit path where no handle
was opened (no target, released-context error, failed open) no handle is
closed. -/
theorem handle_closed_iff_opened (os : OS) (self : Elevation)
    (pid : Option Nat) :
    (Elevation.is_elevated os self pid).closedHandles =
      ((Elevation.is_elevated os self pid).openedHandle).toList := by
  by_cases hcl : self.cleaned = true
  · rw [is_elevated_cleaned os self pid hcl]
    rfl
  · have hc : self.cleaned = false := by simpa using hcl
    rcases pid with _ | p
    · rw [is_elevated_none os self hc]
      by_cases hs : self.sid_result = TRUE
      · rw [mar_eq_true os self 0 none hs]
        rfl
      · rw [mar_eq_not_true os self 0 none hs]
        rfl
    · by_cases hop : os.openProcess PROCESS_ALL_ACCESS FALSE p = 0
      · rw [is_elevated_open_fail os self p hc hop]
        rfl
      · rw [is_elevated_open_ok os self p hc hop]
        by_cases hs : self.sid_result = TRUE
        · rw [mar_eq_true os self _ _ hs]
          rw [if_neg hop]
          rfl
        · rw [mar_eq_not_true os self _ _ hs]
          rw [if_neg hop]
          rfl

/-- C8: with the operating-system primitives deterministic within one
process lifetime (as the oracle model makes them), two sequential queries
on the same non-released context with the identical target return the
identical boolean, despite the first query overwriting the status slot. -/
theorem repeated_query_same_result (os : OS) (self : Elevation)
    (pid : Option Nat) (b : Bool) (hc : self.cleaned = false)
    (h1 : (Elevation.is_elevated os self pid).result = Except.ok b) :
    (Elevation.is_elevated os (Elevation.is_elevated os self pid).state
      pid).result = Except.ok b := by
  rcases pid with _ | p
  · rw [is_elevated_none os self hc] at h1 ⊢
    rw [is_elevated_none os (Elevation.membershipAndReturn os self 0
        none).state ((mar_cleaned os self 0 none).trans hc)]
    rw [mar_result_tail] at h1
    rw [mar_result_tail, mar_sid, mar_agroup, tailStatus_idem]
    exact h1
  · by_cases hop : os.openProcess PROCESS_ALL_ACCESS FALSE p = 0
    · rw [is_elevated_open_fail os self p hc hop] at h1
      exact absurd h1 (by simp)
    · rw [is_elevated_open_ok os self p hc hop] at h1 ⊢
      rw [is_elevated_open_ok os (Elevation.membershipAndReturn os self
          (os.openProcess PROCESS_ALL_ACCESS FALSE p)
          (some (os.openProcess PROCESS_ALL_ACCESS FALSE p))).state p
        ((mar_cleaned os self _ _).trans hc) hop]
      rw [mar_result_tail] at h1
      rw [mar_result_tail, mar_sid, mar_agroup, tailStatus_idem]
      exact h1

/-- C8 witness: two sequential queries with the same target on `osA`. -/
theorem repeated_query_same_result_witness :
    ctxOne.cleaned = false ∧
      (Elevation.is_elevated osA ctxOne (some 7)).result = Except.ok true ∧
      (Elevation.is_elevated osA
        (Elevation.is_elevated osA ctxOne (some 7)).state
        (some 7)).result = Except.ok true :=
  ⟨rfl, rfl, repeated_query_same_result osA ctxOne (some 7) true rfl rfl⟩

/-- C9 counterexample: after a query that returned `Ok(false)` and with no
intervening `renew`, a later query need not return `Ok(false)`: with a
target whose `OpenProcess` fails it returns an `OpenProcessFailed` error. -/
theorem sticky_false_counterexample :
    (Elevation.is_elevated osFailOpen ctxZero none).result =
      Except.ok false ∧
      (Elevation.is_elevated osFailOpen
        (Elevation.is_elevated osFailOpen ctxZero none).state
        (some 5)).result ≠ Except.ok false := by
  refine ⟨rfl, ?_⟩
  intro h
  rw [show (Elevation.is_elevated osFailOpen
      (Elevation.is_elevated osFailOpen ctxZero none).state (some 5)).result =
      Except.error (Error.new 6 "OpenProcess has failed!"
        "Check the error code for more details."
        ErrorType.openProcessFailed) from rfl] at h
  exact Except.noConfusion h

/-- C9 amended: once a query returns `Ok(false)`, the status slot no longer
equals `TRUE`; that predicate is preserved by every further query without a
`renew`, so every subsequent query invokes no membership primitive and,
whenever it returns a boolean at all, that boolean is `false`. -/
theorem sticky_false_amended (os : OS) (self : Elevation) (pid : Option Nat)
    (pids : List (Option Nat)) (pid2 : Option Nat)
    (h : (Elevation.is_elevated os self pid).result = Except.ok false) :
    (runQueries os (Elevation.is_elevated os self pid).state
        pids).sid_result ≠ TRUE ∧
      (Elevation.is_elevated os
        (runQueries os (Elevation.is_elevated os self pid).state pids)
        pid2).ctmCall = none ∧
      ∀ b, (Elevation.is_elevated os
          (runQueries os (Elevation.is_elevated os self pid).state pids)
          pid2).result = Except.ok b → b = false := by
  have hs := query_ok_false_sid os self pid h
  rw [runQueries_fixed os (Elevation.is_elevated os self pid).state hs pids]
  exact ⟨hs, query_sid_ne_no_ctm os _ pid2 hs,
    fun b hb => query_sid_ne_result os _ pid2 b hs hb⟩

/-- C9 amended witness: after an `Ok(false)` query on the zero-status
context, two further queries and one more probe stay false and silent. -/
theorem sticky_false_amended_witness :
    (Elevation.is_elevated osA ctxZero none).result = Except.ok false ∧
      ((runQueries osA (Elevation.is_elevated osA ctxZero none).state
          [some 3, none]).sid_result ≠ TRUE ∧
        (Elevation.is_elevated osA
          (runQueries osA (Elevation.is_elevated osA ctxZero none).state
            [some 3, none]) none).ctmCall = none ∧
        ∀ b, (Elevation.is_elevated osA
            (runQueries osA (Elevation.is_elevated osA ctxZero none).state
              [some 3, none]) none).result = Except.ok b → b = false) :=
  ⟨rfl, sticky_false_amended osA ctxZero none [some 3, none] none rfl⟩

/-- C10: a query mutates no context field other than the status slot — 
`admins_group`, `mem` and `cleaned` are unchanged on every path, `Ok` or
`Err` — and `is_cleaned` is a pure accessor of the `cleaned` flag. -/
theorem query_frame (os : OS) (self : Elevation) (pid : Option Nat) :
    (Elevation.is_elevated os self pid).state.admins_group =
      self.admins_group ∧
      (Elevation.is_elevated os self pid).state.mem = self.mem ∧
      (Elevation.is_elevated os self pid).state.cleaned = self.cleaned ∧
      Elevation.is_cleaned self = self.cleaned := by
  by_cases hcl : self.cleaned = true
  · rw [is_elevated_cleaned os self pid hcl]
    exact ⟨rfl, rfl, rfl, rfl⟩
  · have hc : self.cleaned = false := by simpa using hcl
    rcases pid with _ | p
    · rw [is_elevated_none os self hc]
      exact ⟨mar_agroup os self 0 none, mar_mem os self 0 none,
        mar_cleaned os self 0 none, rfl⟩
    · by_cases hop : os.openProcess PROCESS_ALL_ACCESS FALSE p = 0
      · rw [is_elevated_open_fail os self p hc hop]
        exact ⟨rfl, rfl, rfl, rfl⟩
      · rw [is_elevated_open_ok os self p hc hop]
        exact ⟨mar_agroup os self _ _, mar_mem os self _ _,
          mar_cleaned os self _ _, rfl⟩

end ElevationRS
